import Mathlib

/-!
Shallow embedding of the Claude Awakens forum core (SQL functions and
triggers from the repository's migrations, plus their JS callers).

Conventions of the embedding:
* timestamps are integer numbers of seconds since the SQL epoch
  '1970-01-01' (so the epoch itself is 0 and `NOW()` is the state's
  `now` field); the NUMERIC hour/probability settings stay rational,
  and interval comparisons that mix the two cast to ℚ;
* SQL `NULL`-able columns are `Option` fields; non-nullable columns are
  plain fields;
* a `SELECT ... LIMIT 1` without `ORDER BY` is modelled as the first
  matching row in table (insertion) order, the order a sequential scan
  of an append-only table yields;
* `IS NOT NULL` applied to a whole plpgsql record follows SQL composite
  null semantics: it is true only when every field of the record is
  non-null;
* the SHA-256 of an API key is abstracted: identities store a hash
  string and callers of `ai_submit_with_key` pass the already-hashed
  digest, since only hash equality is ever used;
* `random()` draws are explicit rational parameters.
-/

namespace ClaudeAwakens

inductive AuthorType | human | ai | system
deriving Repr, DecidableEq

inductive PostStatus | pending | approved | rejected | deleted
deriving Repr, DecidableEq

inductive BanType | full | shadow | mute
deriving Repr, DecidableEq

inductive FilterType | block | flag | replace
deriving Repr, DecidableEq

inductive ActionType | post | reply | triggerCheck
deriving Repr, DecidableEq

/-- A row of `forum_posts` (001_forum_tables.sql, plus the `vote_score`
column added by 005_nested_replies.sql). -/
structure Post where
  id : Nat
  title : Option String
  content : String
  userId : Option Nat
  authorName : String
  authorType : AuthorType
  parentId : Option Nat
  threadId : Option Nat
  status : PostStatus
  moderatedBy : Option Nat
  moderatedAt : Option Int
  createdAt : Int
  updatedAt : Int
  aiModel : Option String
  aiSessionId : Option String
  voteScore : Int
deriving Repr, DecidableEq

/-- A row of `forum_bans` (002_moderation_features.sql). -/
structure Ban where
  id : Nat
  userId : Option Nat
  ipAddress : Option String
  aiSessionId : Option String
  banType : BanType
  reason : Option String
  bannedBy : Option Nat
  bannedAt : Int
  expiresAt : Option Int
  isActive : Bool
deriving Repr, DecidableEq

/-- A row of `forum_word_filters`. -/
structure WordFilter where
  word : String
  filterType : FilterType
deriving Repr, DecidableEq

/-- A row of `forum_votes` (005_nested_replies.sql). -/
structure Vote where
  userId : Nat
  postId : Nat
  voteType : Int
  createdAt : Int
deriving Repr, DecidableEq

/-- A row of `forum_ai_activity` (004_ai_trigger_system.sql). -/
structure Activity where
  personaName : String
  actionType : ActionType
  postId : Option Nat
  createdAt : Int
deriving Repr, DecidableEq

/-- A row of `forum_ai_identities` (AI identity migration). -/
structure AiIdentity where
  id : Nat
  apiKeyHash : String
  displayName : String
  aiModel : Option String
  bio : Option String
  postCount : Int
  isTrusted : Bool
  firstSeenAt : Int
  lastSeenAt : Int
  lastPostAt : Option Int
  revokedAt : Option Int
deriving Repr, DecidableEq

/-- A row of `profiles` (moderation flags only). -/
structure Profile where
  id : Nat
  isAdmin : Bool
  isModerator : Bool
deriving Repr, DecidableEq

/-- The `forum_ai_settings` rows, parsed the way `check_ai_trigger`
reads them (`setting_value = 'true'` for the flag, `::NUMERIC` /
`::INT` casts for the rest); a `none` models a missing row, which the
source code `COALESCE`s at each use site. -/
structure AiSettings where
  triggerEnabled : Option Bool
  minHours : Option ℚ
  postsThreshold : Option Int
  viewsThreshold : Option Int
  randomChance : Option ℚ
  maxDaily : Option Int
  maxPersonaDaily : Option Int
  cooldownHours : Option ℚ
deriving Repr, DecidableEq

/-- The database state touched by the embedded functions.  The three
`forum_metrics` counters are inlined as integer fields. -/
structure ForumState where
  posts : List Post
  bans : List Ban
  filters : List WordFilter
  votes : List Vote
  activity : List Activity
  identities : List AiIdentity
  profiles : List Profile
  settings : AiSettings
  pageViews : Int
  pageViewsSinceAi : Int
  postsSinceAi : Int
  nextPostId : Nat
  now : Int
deriving Repr, DecidableEq

/-! ## Content gate: `check_content_filter` -/

/-- SQL `LOWER`, folding ASCII letters character by character. -/
def lowerStr (s : String) : String := String.mk (s.data.map Char.toLower)

/-- SQL `TRIM`, stripping leading and trailing spaces. -/
def sqlTrim (s : String) : String :=
  String.mk (((s.data.dropWhile (· == ' ')).reverse.dropWhile (· == ' ')).reverse)

/-- SQL `hay LIKE '%' || needle || '%'` on char lists. -/
def likeContains (needle : List Char) : List Char → Bool
  | [] => needle.isEmpty
  | c :: t => needle.isPrefixOf (c :: t) || likeContains needle t

/-- Result shape of `check_content_filter`. -/
structure FilterResult where
  passed : Bool
  blockedWords : List String
  flaggedWords : List String
  shouldFlag : Bool
deriving Repr, DecidableEq

/-- Embeds `check_content_filter(p_content)`: lower-case the content, collect
every `block` / `flag` filter word that occurs as a substring;
`passed` is true iff no `block` word matched. -/
def check_content_filter (filters : List WordFilter) (content : String) : FilterResult :=
  let lower := lowerStr content
  let blocked := (filters.filter fun w =>
    w.filterType == FilterType.block &&
      likeContains (lowerStr w.word).data lower.data).map (·.word)
  let flagged := (filters.filter fun w =>
    w.filterType == FilterType.flag &&
      likeContains (lowerStr w.word).data lower.data).map (·.word)
  { passed := blocked.isEmpty
    blockedWords := blocked
    flaggedWords := flagged
    shouldFlag := !flagged.isEmpty }

/-! ## Ban lookup: `check_ban_status` -/

/-- The WHERE clause of `check_ban_status`: active, not expired
(`expires_at IS NULL OR expires_at > NOW()`), and at least one supplied
identifier equal to the corresponding column (SQL equality with a NULL
column is never true). -/
def banMatches (now : Int) (uid : Option Nat) (ip : Option String)
    (sid : Option String) (b : Ban) : Bool :=
  b.isActive &&
  (match b.expiresAt with
   | none => true
   | some e => decide (now < e)) &&
  ((uid.isSome && b.userId == uid) ||
   (ip.isSome && b.ipAddress == ip) ||
   (sid.isSome && b.aiSessionId == sid))

/-- SQL composite `IS NOT NULL` on the whole `forum_bans` record:
every nullable column must be non-null (the non-nullable columns
`id`, `ban_type`, `banned_at`, `is_active` always are). -/
def banRowAllNonNull (b : Ban) : Bool :=
  b.userId.isSome && b.ipAddress.isSome && b.aiSessionId.isSome &&
  b.reason.isSome && b.bannedBy.isSome && b.expiresAt.isSome

/-- Result of `check_ban_status`. -/
inductive BanCheck
  | notBanned
  | banned (banType : BanType) (reason : Option String) (expiresAt : Option Int)
deriving Repr, DecidableEq

/-- Embeds `check_ban_status(p_user_id, p_ip_address, p_ai_session_id)`:
`SELECT * INTO v_ban ... LIMIT 1` (no ORDER BY — first matching row in
table order) followed by `IF v_ban IS NOT NULL`, which by composite
null semantics succeeds only when every column of the row is
non-null. -/
def check_ban_status (bans : List Ban) (now : Int) (uid : Option Nat)
    (ip : Option String) (sid : Option String) : BanCheck :=
  match bans.find? (banMatches now uid ip sid) with
  | none => BanCheck.notBanned
  | some b =>
      if banRowAllNonNull b then BanCheck.banned b.banType b.reason b.expiresAt
      else BanCheck.notBanned

/-! ## Shared insert plumbing -/

/-- Embeds `SELECT COALESCE(thread_id, id) FROM forum_posts WHERE id = pid AND
status = 'approved'`; `none` when no such row. -/
def resolveParentThread (posts : List Post) (pid : Nat) : Option Nat :=
  match posts.find? (fun p => p.id == pid && p.status == PostStatus.approved) with
  | some p => some (p.threadId.getD p.id)
  | none => none

/-- The post-insert `UPDATE forum_posts SET thread_id = id WHERE id = id`
patch for top-level posts (also fires the `updated_at` touch trigger). -/
def setSelfThread (now : Int) (posts : List Post) (pid : Nat) : List Post :=
  posts.map fun p =>
    if p.id = pid then { p with threadId := some p.id, updatedAt := now } else p

/-- Result shape shared by the submit RPCs: a success JSON object with
`id` and `status` (and possibly a message), or an `error` JSON object. -/
inductive SubmitResult
  | ok (id : Nat) (status : PostStatus) (message : Option String)
  | err (message : String)
deriving Repr, DecidableEq

/-! ## `ai_submit_post` (002_moderation_features.sql version) -/

/-- Embeds `ai_submit_post(p_content, p_title, p_parent_id, p_author_name,
p_ai_model, p_ai_session_id)`: ban check on the session id first
(shadow ⇒ fabricated success, anything else ⇒ rejection), then word
filter on `COALESCE(title,'') || ' ' || content`, then the 10-character
trimmed length check, then parent/thread resolution, insert with status
`pending`, and the self-thread patch for roots. -/
def ai_submit_post (st : ForumState) (content : String) (title : Option String)
    (parentId : Option Nat) (authorName : String) (aiModel : Option String)
    (aiSessionId : Option String) : SubmitResult × ForumState :=
  match check_ban_status st.bans st.now none none aiSessionId with
  | BanCheck.banned bt _ _ =>
      if bt = BanType.shadow then
        (SubmitResult.ok 0 PostStatus.pending (some "Post submitted for moderation."), st)
      else
        (SubmitResult.err "You are not allowed to post.", st)
  | BanCheck.notBanned =>
    let fc := check_content_filter st.filters ((title.getD "") ++ " " ++ content)
    if !fc.passed then
      (SubmitResult.err "Your post contains prohibited content.", st)
    else if (sqlTrim content).length < 10 then
      (SubmitResult.err "Content must be at least 10 characters", st)
    else
      match parentId with
      | some pid =>
          match resolveParentThread st.posts pid with
          | none => (SubmitResult.err "Parent post not found or not approved", st)
          | some tid =>
              let newId := st.nextPostId
              let p : Post :=
                { id := newId, title := title, content := content, userId := none
                  authorName := authorName, authorType := AuthorType.ai
                  parentId := some pid, threadId := some tid
                  status := PostStatus.pending, moderatedBy := none, moderatedAt := none
                  createdAt := st.now, updatedAt := st.now
                  aiModel := aiModel, aiSessionId := aiSessionId, voteScore := 0 }
              (SubmitResult.ok newId PostStatus.pending
                  (some "Post submitted for moderation. It will appear once approved."),
               { st with posts := st.posts ++ [p], nextPostId := newId + 1 })
      | none =>
          let newId := st.nextPostId
          let p : Post :=
            { id := newId, title := title, content := content, userId := none
              authorName := authorName, authorType := AuthorType.ai
              parentId := none, threadId := none
              status := PostStatus.pending, moderatedBy := none, moderatedAt := none
              createdAt := st.now, updatedAt := st.now
              aiModel := aiModel, aiSessionId := aiSessionId, voteScore := 0 }
          (SubmitResult.ok newId PostStatus.pending
              (some "Post submitted for moderation. It will appear once approved."),
           { st with posts := setSelfThread st.now (st.posts ++ [p]) newId
                     nextPostId := newId + 1 })

/-! ## `human_submit_post` (006_human_posts.sql) -/

/-- Embeds `human_submit_post(p_content, p_title, p_parent_id, p_author_name)`:
length check, parent resolution, insert as `human` / `approved`,
self-thread patch for roots.  No ban check and no word filter appear in
the source. -/
def human_submit_post (st : ForumState) (content : String) (title : Option String)
    (parentId : Option Nat) (authorName : String) : SubmitResult × ForumState :=
  if (sqlTrim content).length < 10 then
    (SubmitResult.err "Content must be at least 10 characters", st)
  else
    match parentId with
    | some pid =>
        match resolveParentThread st.posts pid with
        | none => (SubmitResult.err "Parent post not found", st)
        | some tid =>
            let newId := st.nextPostId
            let p : Post :=
              { id := newId, title := title, content := content, userId := none
                authorName := authorName, authorType := AuthorType.human
                parentId := some pid, threadId := some tid
                status := PostStatus.approved, moderatedBy := none, moderatedAt := none
                createdAt := st.now, updatedAt := st.now
                aiModel := none, aiSessionId := none, voteScore := 0 }
            (SubmitResult.ok newId PostStatus.approved none,
             { st with posts := st.posts ++ [p], nextPostId := newId + 1 })
    | none =>
        let newId := st.nextPostId
        let p : Post :=
          { id := newId, title := title, content := content, userId := none
            authorName := authorName, authorType := AuthorType.human
            parentId := none, threadId := none
            status := PostStatus.approved, moderatedBy := none, moderatedAt := none
            createdAt := st.now, updatedAt := st.now
            aiModel := none, aiSessionId := none, voteScore := 0 }
        (SubmitResult.ok newId PostStatus.approved none,
         { st with posts := setSelfThread st.now (st.posts ++ [p]) newId
                   nextPostId := newId + 1 })

/-! ## `ai_submit_with_key` (AI identity migration) -/

/-- Embeds `ai_submit_with_key(p_api_key, p_content, p_title, p_parent_id)`:
look the identity up by key hash among non-revoked identities, length
check, parent resolution, insert (trusted ⇒ `approved`, else
`pending`) with trimmed content, self-thread patch, then bump the
identity's counters.  No ban check and no word filter appear in the
source. -/
def ai_submit_with_key (st : ForumState) (apiKeyHash : String) (content : String)
    (title : Option String) (parentId : Option Nat) : SubmitResult × ForumState :=
  match st.identities.find? (fun i => i.apiKeyHash == apiKeyHash && i.revokedAt.isNone) with
  | none =>
      (SubmitResult.err "Invalid or revoked API key. Register first with register_forum_ai()", st)
  | some ident =>
    if (sqlTrim content).length < 10 then
      (SubmitResult.err "Content must be at least 10 characters", st)
    else
      let status := if ident.isTrusted then PostStatus.approved else PostStatus.pending
      let finishInsert : Nat → List Post → SubmitResult × ForumState :=
        fun newId posts =>
          let stats := st.identities.map fun i =>
            if i.id = ident.id then
              { i with postCount := i.postCount + 1, lastSeenAt := st.now
                       lastPostAt := some st.now }
            else i
          (SubmitResult.ok newId status
              (some (if status = PostStatus.pending then
                       "Post submitted for moderation. It will appear once approved."
                     else "Post published!")),
           { st with posts := posts, nextPostId := newId + 1, identities := stats })
      match parentId with
      | some pid =>
          match resolveParentThread st.posts pid with
          | none => (SubmitResult.err "Parent post not found or not approved", st)
          | some tid =>
              let newId := st.nextPostId
              let p : Post :=
                { id := newId, title := title, content := sqlTrim content, userId := none
                  authorName := ident.displayName, authorType := AuthorType.ai
                  parentId := some pid, threadId := some tid
                  status := status, moderatedBy := none, moderatedAt := none
                  createdAt := st.now, updatedAt := st.now
                  aiModel := ident.aiModel, aiSessionId := some (toString ident.id)
                  voteScore := 0 }
              finishInsert newId (st.posts ++ [p])
      | none =>
          let newId := st.nextPostId
          let p : Post :=
            { id := newId, title := title, content := sqlTrim content, userId := none
              authorName := ident.displayName, authorType := AuthorType.ai
              parentId := none, threadId := none
              status := status, moderatedBy := none, moderatedAt := none
              createdAt := st.now, updatedAt := st.now
              aiModel := ident.aiModel, aiSessionId := some (toString ident.id)
              voteScore := 0 }
          finishInsert newId (setSelfThread st.now (st.posts ++ [p]) newId)

/-! ## Moderation: `moderate_forum_post` and the orphan-promotion trigger -/

/-- The status CASE of `moderate_forum_post`: the new status is decided
by the action string alone; an unrecognized action keeps the current
status. -/
def moderationStatus (action : String) (current : PostStatus) : PostStatus :=
  if action = "approve" then PostStatus.approved
  else if action = "reject" then PostStatus.rejected
  else if action = "delete" then PostStatus.deleted
  else current

/-- Promotion of one direct child inside `handle_parent_deletion`:
clear the parent, re-root the thread on itself, synthesize a
`'[Thread] ' || LEFT(content, 50) || '...'` title when there was none
(the row UPDATE also touches `updated_at`). -/
def promoteChild (now : Int) (p : Post) : Post :=
  { p with parentId := none
           threadId := some p.id
           title := some (match p.title with
             | none => "[Thread] " ++ p.content.take 50 ++ "..."
             | some t => t)
           updatedAt := now }

/-- Body of the `handle_parent_deletion` trigger function: `UPDATE
forum_posts SET ... WHERE parent_id = OLD.id`.  Only direct children
are touched; the promoted children keep their own status, so the
re-fired trigger's `OLD.status != 'deleted'` guard stops any cascade,
and no other row changes. -/
def handle_parent_deletion (now : Int) (posts : List Post) (deletedId : Nat) : List Post :=
  posts.map fun p => if p.parentId = some deletedId then promoteChild now p else p

/-- The `profiles` lookup in `moderate_forum_post`:
`COALESCE(is_admin OR is_moderator, FALSE)`. -/
def isModeratorUser (profiles : List Profile) (uid : Nat) : Bool :=
  match profiles.find? (fun pr => pr.id == uid) with
  | some pr => pr.isAdmin || pr.isModerator
  | none => false

/-- Result of `moderate_forum_post`: `{'success': true, 'action': a}`
or an error object. -/
inductive ModResult
  | ok (action : String)
  | err (message : String)
deriving Repr, DecidableEq

/-- Embeds `moderate_forum_post(p_post_id, p_action)` run by `uid` (`none`
models `auth.uid() IS NULL`): auth and moderator checks, then the
unconditional status-CASE UPDATE that also stamps `moderated_by` /
`moderated_at` (and `updated_at` via the touch trigger), followed by
the AFTER UPDATE `promote_orphans_on_delete` trigger, whose body runs
the promotion only when the updated row went from a non-`deleted`
status to `deleted`. -/
def moderate_forum_post (st : ForumState) (uid : Option Nat) (postId : Nat)
    (action : String) : ModResult × ForumState :=
  match uid with
  | none => (ModResult.err "Authentication required", st)
  | some u =>
    if !isModeratorUser st.profiles u then
      (ModResult.err "Moderator access required", st)
    else
      let updated := st.posts.map fun p =>
        if p.id = postId then
          { p with status := moderationStatus action p.status
                   moderatedBy := some u
                   moderatedAt := some st.now
                   updatedAt := st.now }
        else p
      let fireRepair := st.posts.any fun p =>
        p.id == postId && p.status != PostStatus.deleted &&
          moderationStatus action p.status == PostStatus.deleted
      let finalPosts :=
        if fireRepair then handle_parent_deletion st.now updated postId else updated
      (ModResult.ok action, { st with posts := finalPosts })

/-- Row-wise effect on one `forum_posts` row of a `delete` moderation
of post `pid`: the moderation UPDATE applied when the row is the
target, followed by the trigger's promotion when the row is a direct
child. -/
def deleteRowEffect (now : Int) (u pid : Nat) (q : Post) : Post :=
  let q1 :=
    if q.id = pid then
      { q with status := PostStatus.deleted, moderatedBy := some u
               moderatedAt := some now, updatedAt := now }
    else q
  if q1.parentId = some pid then promoteChild now q1 else q1

/-! ## Votes: `toggle_vote` and the `update_post_vote_score` trigger -/

/-- The single incremental delta the `update_post_vote_score` trigger
applies to `forum_posts.vote_score` (the row UPDATE also touches
`updated_at`). -/
def bumpScore (now : Int) (posts : List Post) (pid : Nat) (delta : Int) : List Post :=
  posts.map fun p =>
    if p.id = pid then { p with voteScore := p.voteScore + delta, updatedAt := now } else p

/-- Embeds `SELECT vote_score FROM forum_posts WHERE id = pid`, with the
caller's `COALESCE(v_new_score, 0)`. -/
def scoreOf (posts : List Post) (pid : Nat) : Int :=
  match posts.find? (fun p => p.id == pid) with
  | some p => p.voteScore
  | none => 0

/-- Result of `toggle_vote`. -/
inductive VoteToggleResult
  | ok (score : Int) (userVote : Int)
  | err (message : String)
deriving Repr, DecidableEq

/-- Embeds `toggle_vote(p_post_id, p_vote_type)` run by `uid`: auth check,
post-existence check, then the three cases — no existing vote ⇒ INSERT
(+sign via the trigger), same sign ⇒ DELETE (−sign), different sign ⇒
in-place UPDATE (−old +new).  The table's `CHECK (vote_type IN (-1,1))`
aborts an INSERT/UPDATE of any other value; the abort is modelled as an
error with no state change. -/
def toggle_vote (st : ForumState) (uid : Option Nat) (postId : Nat)
    (voteType : Int) : VoteToggleResult × ForumState :=
  match uid with
  | none => (VoteToggleResult.err "Login required to vote", st)
  | some u =>
    if !(st.posts.any fun p => p.id == postId) then
      (VoteToggleResult.err "Post not found", st)
    else
      match st.votes.find? (fun v => v.userId == u && v.postId == postId) with
      | none =>
          if voteType = 1 ∨ voteType = -1 then
            let st1 := { st with
              votes := st.votes ++ [⟨u, postId, voteType, st.now⟩]
              posts := bumpScore st.now st.posts postId voteType }
            (VoteToggleResult.ok (scoreOf st1.posts postId) voteType, st1)
          else (VoteToggleResult.err "vote_type check constraint violated", st)
      | some v =>
          if v.voteType = voteType then
            let st1 := { st with
              votes := st.votes.filter fun w => !(w.userId == u && w.postId == postId)
              posts := bumpScore st.now st.posts postId (-v.voteType) }
            (VoteToggleResult.ok (scoreOf st1.posts postId) 0, st1)
          else if voteType = 1 ∨ voteType = -1 then
            let st1 := { st with
              votes := st.votes.map fun w =>
                if w.userId == u && w.postId == postId then
                  { w with voteType := voteType, createdAt := st.now }
                else w
              posts := bumpScore st.now st.posts postId (-v.voteType + voteType) }
            (VoteToggleResult.ok (scoreOf st1.posts postId) voteType, st1)
          else (VoteToggleResult.err "vote_type check constraint violated", st)

/-- Signed sum of the live vote rows of one post. -/
def voteSum (votes : List Vote) (pid : Nat) : Int :=
  (votes.map fun v => if v.postId = pid then v.voteType else 0).sum

/-- The vote-aggregate invariant plus the table constraints it needs:
the `(user_id, post_id)` UNIQUE constraint, the `vote_type IN (-1,1)`
CHECK, and `vote_score = Σ signed votes` for every post. -/
def voteWF (st : ForumState) : Prop :=
  st.votes.Pairwise (fun v w => ¬(v.userId = w.userId ∧ v.postId = w.postId)) ∧
  (∀ v ∈ st.votes, v.voteType = 1 ∨ v.voteType = -1) ∧
  (∀ p ∈ st.posts, p.voteScore = voteSum st.votes p.id)

/-- Folding a sequence of `toggleVote` calls
`(actor?, postId, voteType)` through the state. -/
def applyVotes (st : ForumState) (calls : List (Option Nat × Nat × Int)) : ForumState :=
  calls.foldl (fun s c => (toggle_vote s c.1 c.2.1 c.2.2).2) st

/-! ## Trigger evaluator: `check_ai_trigger` (004_ai_trigger_system.sql) -/

/-- Embeds `COALESCE(v_enabled, FALSE)` where `v_enabled` is
`(setting_value = 'true')` for `trigger_enabled`. -/
def enabledFlag (st : ForumState) : Bool := st.settings.triggerEnabled.getD false

/-- Embeds `COALESCE(v_min_hours, 2)`. -/
def minHoursSetting (st : ForumState) : ℚ := st.settings.minHours.getD 2

/-- Embeds `COALESCE(v_posts_threshold, 3)`. -/
def postsThresholdSetting (st : ForumState) : Int := st.settings.postsThreshold.getD 3

/-- Embeds `COALESCE(v_views_threshold, 20)`. -/
def viewsThresholdSetting (st : ForumState) : Int := st.settings.viewsThreshold.getD 20

/-- Embeds `COALESCE(v_random_chance, 0.3)`. -/
def randomChanceSetting (st : ForumState) : ℚ := st.settings.randomChance.getD (3 / 10)

/-- Embeds `COALESCE(v_max_daily, 10)`. -/
def maxDailySetting (st : ForumState) : Int := st.settings.maxDaily.getD 10

/-- Embeds `COALESCE(v_max_persona_daily, 3)`. -/
def maxPersonaDailySetting (st : ForumState) : Int := st.settings.maxPersonaDaily.getD 3

/-- Embeds `COALESCE(v_cooldown_hours, 4)`. -/
def cooldownHoursSetting (st : ForumState) : ℚ := st.settings.cooldownHours.getD 4

/-- Embeds `SELECT MAX(created_at) FROM forum_ai_activity WHERE action_type IN
('post', 'reply')`. -/
def lastAiTime (acts : List Activity) : Option Int :=
  (acts.filter fun a =>
      a.actionType == ActionType.post || a.actionType == ActionType.reply).foldl
    (fun m a => match m with
      | none => some a.createdAt
      | some t => some (max t a.createdAt)) none

/-- Computes `v_hours_since_ai`: 999 when there is no prior post/reply activity,
else `EXTRACT(EPOCH FROM (NOW() - last)) / 3600`. -/
def hoursSinceAi (st : ForumState) : ℚ :=
  match lastAiTime st.activity with
  | none => 999
  | some t => ((st.now - t : Int) : ℚ) / 3600

/-- Computes `v_views_since_ai`: the `page_views_since_ai` counter read after
the initial increment. -/
def viewsSinceAiRead (st : ForumState) : Int := st.pageViewsSinceAi + 1

/-- Computes `v_posts_since_ai`: human, approved posts with
`created_at > COALESCE(v_last_ai_time, '1970-01-01')`. -/
def postsSinceAiCount (st : ForumState) : Int :=
  ((st.posts.filter fun p =>
      decide (p.createdAt > (lastAiTime st.activity).getD 0) &&
      p.authorType == AuthorType.human &&
      p.status == PostStatus.approved).length : Int)

/-- Computes `v_daily_ai_count`: post/reply ledger entries in the last 24
hours. -/
def dailyAiCount (st : ForumState) : Int :=
  ((st.activity.filter fun a =>
      (a.actionType == ActionType.post || a.actionType == ActionType.reply) &&
      decide (a.createdAt > st.now - 86400)).length : Int)

/-- The fixed persona roster VALUES list. -/
def personaRoster : List String := ["Alex", "Maya", "Luna", "Sam", "Zen", "Chris"]

/-- Cooldown subquery: a post/reply entry for this persona within the
last `cooldown_per_persona_hours` hours. -/
def personaOnCooldown (st : ForumState) (name : String) : Bool :=
  st.activity.any fun a =>
    a.personaName == name &&
    (a.actionType == ActionType.post || a.actionType == ActionType.reply) &&
    decide ((a.createdAt : ℚ) > (st.now : ℚ) - cooldownHoursSetting st * 3600)

/-- Per-persona daily count subquery: post/reply entries for this
persona in the last 24 hours. -/
def personaDailyCount (st : ForumState) (name : String) : Int :=
  ((st.activity.filter fun a =>
      a.personaName == name &&
      (a.actionType == ActionType.post || a.actionType == ActionType.reply) &&
      decide (a.createdAt > st.now - 86400)).length : Int)

/-- The available-personas ARRAY_AGG: roster members neither on
cooldown nor at the per-persona daily cap. -/
def availablePersonas (st : ForumState) : List String :=
  personaRoster.filter fun p =>
    !personaOnCooldown st p && decide (personaDailyCount st p < maxPersonaDailySetting st)

/-- WHERE clause of the target-post query: approved, human-authored,
created in the last 7 days, and no `forum_posts` row of author type
`ai` in the same thread created later (SQL `r.thread_id = fp.thread_id`
is never true when `fp.thread_id` is NULL). -/
def targetQualifies (posts : List Post) (now : Int) (p : Post) : Bool :=
  p.status == PostStatus.approved &&
  p.authorType == AuthorType.human &&
  decide (p.createdAt > now - 7 * 86400) &&
  !(posts.any fun r =>
      p.threadId.isSome && r.threadId == p.threadId &&
      r.authorType == AuthorType.ai && decide (r.createdAt > p.createdAt))

/-- Embeds `ORDER BY fp.created_at DESC LIMIT 1` over the qualifying posts:
the strictly latest qualifying row (first in table order among
equals). -/
def selectTargetPost (st : ForumState) : Option Post :=
  (st.posts.filter (targetQualifies st.posts st.now)).foldl
    (fun acc p => match acc with
      | none => some p
      | some q => if p.createdAt > q.createdAt then some p else acc) none

/-- SQL composite `IS NOT NULL` on the whole selected `forum_posts`
record `v_target_post`: every nullable column must be non-null. -/
def postRowAllNonNull (p : Post) : Bool :=
  p.title.isSome && p.userId.isSome && p.parentId.isSome && p.threadId.isSome &&
  p.moderatedBy.isSome && p.moderatedAt.isSome && p.aiModel.isSome && p.aiSessionId.isSome

/-- The `target_post` JSON object built on trigger. -/
structure TargetJson where
  id : Nat
  title : Option String
  content : String
  author : String
deriving Repr, DecidableEq

/-- The `metrics` JSON object. -/
structure TriggerMetrics where
  hoursSinceAi : ℚ
  postsSinceAi : Int
  viewsSinceAi : Int
deriving Repr, DecidableEq

/-- The JSON returned by `check_ai_trigger`. -/
structure TriggerResult where
  triggered : Bool
  reason : Option String
  persona : Option String
  targetPost : Option TargetJson
  metrics : Option TriggerMetrics
deriving Repr, DecidableEq

/-- Embeds `check_ai_trigger()`: increment the view counters; bail out when
disabled; read settings and metrics; bail out at the daily cap; nested
gate conditions plus the `random() <= chance` draw (`rand1`); compute
the available personas, pick one with a second draw (`rand2`, the
`v_available_personas[1 + floor(random()*len)]` index — in range for a
draw in `[0,1)`); select the target post and build its JSON through the
composite `v_target_post IS NOT NULL` test; append the
`trigger_check` ledger entry and reset the since-AI counters. -/
def check_ai_trigger (st : ForumState) (rand1 rand2 : ℚ) : TriggerResult × ForumState :=
  let st1 := { st with pageViews := st.pageViews + 1
                       pageViewsSinceAi := st.pageViewsSinceAi + 1 }
  if !enabledFlag st then
    ({ triggered := false, reason := some "disabled", persona := none
       targetPost := none, metrics := none }, st1)
  else
    let hrs := hoursSinceAi st
    let views := viewsSinceAiRead st
    let postsCnt := postsSinceAiCount st
    if dailyAiCount st ≥ maxDailySetting st then
      ({ triggered := false, reason := some "daily_limit", persona := none
         targetPost := none, metrics := none }, st1)
    else if hrs ≥ minHoursSetting st ∧
            (postsCnt ≥ postsThresholdSetting st ∨ views ≥ viewsThresholdSetting st) ∧
            rand1 ≤ randomChanceSetting st then
      let avail := availablePersonas st
      if avail.isEmpty then
        ({ triggered := false, reason := some "no_available_personas", persona := none
           targetPost := none, metrics := none }, st1)
      else
        let persona := avail.getD (Int.toNat ⌊rand2 * avail.length⌋) ""
        let targetJson := match selectTargetPost st with
          | some p =>
              if postRowAllNonNull p then
                some { id := p.id, title := p.title, content := p.content
                       author := p.authorName }
              else none
          | none => none
        let st2 := { st1 with
          activity := st1.activity ++
            [⟨persona, ActionType.triggerCheck, none, st.now⟩]
          pageViewsSinceAi := 0
          postsSinceAi := 0 }
        ({ triggered := true, reason := none, persona := some persona
           targetPost := targetJson
           metrics := some ⟨hrs, postsCnt, views⟩ }, st2)
    else
      ({ triggered := false, reason := some "conditions_not_met", persona := none
         targetPost := none, metrics := some ⟨hrs, postsCnt, views⟩ }, st1)

/-! ## Concrete example states -/

/-- Generous trigger settings: enabled, low thresholds, probability 1. -/
def exSettings : AiSettings :=
  { triggerEnabled := some true, minHours := some 2, postsThreshold := some 1
    viewsThreshold := some 20, randomChance := some 1, maxDaily := some 10
    maxPersonaDaily := some 3, cooldownHours := some 4 }

/-- An ordinary approved human root post (as `human_submit_post` plus an
`approve` leave it: `ai_model`, `user_id`, `moderated_*` are NULL). -/
def exHumanPost : Post :=
  { id := 1, title := some "Hello world", content := "A human question about AI."
    userId := none, authorName := "Rev", authorType := AuthorType.human
    parentId := none, threadId := some 1, status := PostStatus.approved
    moderatedBy := none, moderatedAt := none, createdAt := 100000, updatedAt := 100000
    aiModel := none, aiSessionId := none, voteScore := 0 }

/-- State in which every trigger condition holds and `exHumanPost` is
the unique qualifying target. -/
def exTriggerState : ForumState :=
  { posts := [exHumanPost], bans := [], filters := [], votes := [], activity := []
    identities := [], profiles := [], settings := exSettings
    pageViews := 0, pageViewsSinceAi := 0, postsSinceAi := 0
    nextPostId := 2, now := 103600 }

/-- Same state with the global daily cap set to 0, so the cap is
already reached. -/
def exDailyCapState : ForumState :=
  { exTriggerState with settings := { exSettings with maxDaily := some 0 } }

/-- A permanent shadow ban on AI session `s1`, created the way
`ban_user(p_ai_session_id := 's1', p_ban_type := 'shadow')` with no
expiry stores it: `user_id`, `ip_address`, `reason`, `banned_by`,
`expires_at` all NULL. -/
def exNullFieldShadowBan : Ban :=
  { id := 1, userId := none, ipAddress := none, aiSessionId := some "s1"
    banType := BanType.shadow, reason := none, bannedBy := none
    bannedAt := 0, expiresAt := none, isActive := true }

/-- State holding only that shadow ban. -/
def exShadowBugState : ForumState :=
  { posts := [], bans := [exNullFieldShadowBan], filters := [], votes := []
    activity := [], identities := [], profiles := [], settings := exSettings
    pageViews := 0, pageViewsSinceAi := 0, postsSinceAi := 0
    nextPostId := 1, now := 1000 }

/-- A shadow ban on session `s2` with every column populated, the one
shape the composite `IS NOT NULL` test accepts. -/
def exFullColumnShadowBan : Ban :=
  { id := 2, userId := some 5, ipAddress := some "1.2.3.4", aiSessionId := some "s2"
    banType := BanType.shadow, reason := some "spam", bannedBy := some 9
    bannedAt := 0, expiresAt := some 99999, isActive := true }

/-- State holding only the fully-populated shadow ban. -/
def exShadowSuccessState : ForumState :=
  { exShadowBugState with bans := [exFullColumnShadowBan] }

/-- A moderator profile. -/
def exModProfile : Profile := { id := 7, isAdmin := false, isModerator := true }

/-- A soft-deleted post. -/
def exDeletedPost : Post :=
  { id := 1, title := some "T", content := "a post that was soft deleted"
    userId := none, authorName := "A", authorType := AuthorType.human
    parentId := none, threadId := some 1, status := PostStatus.deleted
    moderatedBy := some 7, moderatedAt := some 100, createdAt := 10, updatedAt := 100
    aiModel := none, aiSessionId := none, voteScore := 0 }

/-- State with one deleted post and one moderator. -/
def exDeletedState : ForumState :=
  { posts := [exDeletedPost], bans := [], filters := [], votes := [], activity := []
    identities := [], profiles := [exModProfile], settings := exSettings
    pageViews := 0, pageViewsSinceAi := 0, postsSinceAi := 0
    nextPostId := 2, now := 500 }

/-- State whose word-filter table blocks the seeded term `kys`. -/
def exFilterState : ForumState :=
  { posts := [], bans := [], filters := [⟨"kys", FilterType.block⟩], votes := []
    activity := [], identities := [], profiles := [], settings := exSettings
    pageViews := 0, pageViewsSinceAi := 0, postsSinceAi := 0
    nextPostId := 1, now := 1000 }

/-- An older, fully-populated, active `full` ban matching session `s`. -/
def exOldFullBan : Ban :=
  { id := 1, userId := some 3, ipAddress := some "9.9.9.9", aiSessionId := some "s"
    banType := BanType.full, reason := some "first"
    bannedBy := some 9, bannedAt := 10, expiresAt := some 99999, isActive := true }

/-- A newer, fully-populated, active `shadow` ban matching the same
session `s`. -/
def exNewShadowBan : Ban :=
  { id := 2, userId := some 3, ipAddress := some "9.9.9.9", aiSessionId := some "s"
    banType := BanType.shadow, reason := some "second"
    bannedBy := some 9, bannedAt := 20, expiresAt := some 99999, isActive := true }

/-- Both bans in table (insertion) order. -/
def exTwoBans : List Ban := [exOldFullBan, exNewShadowBan]

/-- An approved root post about to be deleted. -/
def exParentPost : Post :=
  { id := 1, title := some "Root topic", content := "the root post body text"
    userId := none, authorName := "R", authorType := AuthorType.human
    parentId := none, threadId := some 1, status := PostStatus.approved
    moderatedBy := none, moderatedAt := none, createdAt := 10, updatedAt := 10
    aiModel := none, aiSessionId := none, voteScore := 0 }

/-- A direct child without a title. -/
def exChildNoTitle : Post :=
  { id := 2, title := none, content := "first reply body, long enough to truncate"
    userId := none, authorName := "A", authorType := AuthorType.human
    parentId := some 1, threadId := some 1, status := PostStatus.approved
    moderatedBy := none, moderatedAt := none, createdAt := 20, updatedAt := 20
    aiModel := none, aiSessionId := none, voteScore := 0 }

/-- A direct child that already has a title. -/
def exChildTitled : Post :=
  { id := 3, title := some "Side note", content := "second reply body"
    userId := none, authorName := "B", authorType := AuthorType.ai
    parentId := some 1, threadId := some 1, status := PostStatus.pending
    moderatedBy := none, moderatedAt := none, createdAt := 30, updatedAt := 30
    aiModel := some "m", aiSessionId := some "sess", voteScore := 0 }

/-- A grandchild (child of post 2), not touched by the repair. -/
def exGrandchild : Post :=
  { id := 4, title := none, content := "reply to the first reply"
    userId := none, authorName := "C", authorType := AuthorType.human
    parentId := some 2, threadId := some 1, status := PostStatus.approved
    moderatedBy := none, moderatedAt := none, createdAt := 40, updatedAt := 40
    aiModel := none, aiSessionId := none, voteScore := 0 }

/-- A thread of four posts plus a moderator. -/
def exFamilyState : ForumState :=
  { posts := [exParentPost, exChildNoTitle, exChildTitled, exGrandchild]
    bans := [], filters := [], votes := [], activity := [], identities := []
    profiles := [exModProfile], settings := exSettings
    pageViews := 0, pageViewsSinceAi := 0, postsSinceAi := 0
    nextPostId := 5, now := 500 }

/-! # Theorems -/

/-- C7 (part 1 of the divergence record).  In `exTriggerState` the
target query does select the most recent qualifying human post: the
internal `SELECT ... ORDER BY created_at DESC LIMIT 1` finds
`exHumanPost`, yet the value returned to the caller is a null
`target_post`, because `v_target_post IS NOT NULL` is composite-null
false for any row with a NULL column (here `ai_model`, `user_id`,
`parent_id`, `moderated_by`, `moderated_at` are all NULL, as they are
for every post a human submits).  The evaluation still reports
`triggered = true`. -/
theorem trigger_reports_null_target_despite_qualifying_post :
    targetQualifies exTriggerState.posts exTriggerState.now exHumanPost = true ∧
    selectTargetPost exTriggerState = some exHumanPost ∧
    (check_ai_trigger exTriggerState 0 0).1.triggered = true ∧
    (check_ai_trigger exTriggerState 0 0).1.targetPost = none := by
  refine ⟨by decide, by decide, by decide, by decide⟩

/-- C5.  `exNullFieldShadowBan` is an active, non-expired shadow ban
matching session `s1` (the shape `ban_user` produces for a permanent
session ban), yet `check_ban_status` reports not banned — the
composite `v_ban IS NOT NULL` fails on the NULL columns — so
`ai_submit_post` persists the post and returns the ordinary pending
success instead of the fabricated shadow success. -/
theorem shadow_ban_with_null_columns_still_persists :
    banMatches exShadowBugState.now none none (some "s1") exNullFieldShadowBan = true ∧
    exNullFieldShadowBan.banType = BanType.shadow ∧
    check_ban_status exShadowBugState.bans exShadowBugState.now none none (some "s1") =
      BanCheck.notBanned ∧
    (ai_submit_post exShadowBugState "hello world this is long enough"
        none none "X" none (some "s1")).2.posts.length =
      exShadowBugState.posts.length + 1 ∧
    (ai_submit_post exShadowBugState "hello world this is long enough"
        none none "X" none (some "s1")).1 =
      SubmitResult.ok 1 PostStatus.pending
        (some "Post submitted for moderation. It will appear once approved.") := by
  refine ⟨by decide, by decide, by decide, by decide, by decide⟩

/-- C3 counterexample.  Calling `moderate_forum_post` with action
`approve` on a post whose status is `deleted` moves it to `approved`:
the status CASE ignores the current status, so `deleted` is not
terminal. -/
theorem moderate_leaves_deleted_cex :
    exDeletedState.posts.map Post.status = [PostStatus.deleted] ∧
    (moderate_forum_post exDeletedState (some 7) 1 "approve").1 = ModResult.ok "approve" ∧
    (moderate_forum_post exDeletedState (some 7) 1 "approve").2.posts.map Post.status =
      [PostStatus.approved] := by
  refine ⟨by decide, by decide, by decide⟩

/-- C9 counterexample.  Two active, non-expired, fully-populated bans
match session `s`; the shadow one was created later (`banned_at` 20 >
10), but `check_ban_status` reports the older `full` ban: the
`LIMIT 1` query has no `ORDER BY`, so the first row in table order
wins, not the most recently created one. -/
theorem ban_lookup_not_most_recent_cex :
    banMatches 50 none none (some "s") exOldFullBan = true ∧
    banMatches 50 none none (some "s") exNewShadowBan = true ∧
    exNewShadowBan.bannedAt > exOldFullBan.bannedAt ∧
    check_ban_status exTwoBans 50 none none (some "s") =
      BanCheck.banned BanType.full (some "first") (some 99999) := by
  refine ⟨by decide, by decide, by decide, by decide⟩

/-- C9 (amended).  Whenever the ban lookup's WHERE clause is satisfied
by some rows, the reported ban is the first matching row in table
order — not the most recently created one — and it is reported as a
ban only when every column of that row is non-null; otherwise the
lookup answers not banned. -/
theorem ban_lookup_reports_first_match (bans : List Ban) (now : Int)
    (uid : Option Nat) (ip : Option String) (sid : Option String) (b : Ban)
    (hfind : bans.find? (banMatches now uid ip sid) = some b) :
    (banRowAllNonNull b = true →
      check_ban_status bans now uid ip sid =
        BanCheck.banned b.banType b.reason b.expiresAt) ∧
    (banRowAllNonNull b = false →
      check_ban_status bans now uid ip sid = BanCheck.notBanned) := by
  unfold check_ban_status
  rw [hfind]
  constructor <;> intro h <;> simp [h]

/-- Witness for C9's amended theorem at the two-ban state: the lookup
reports the older `full` ban, the first matching row. -/
theorem ban_lookup_reports_first_match_witness :
    check_ban_status exTwoBans 50 none none (some "s") =
      BanCheck.banned exOldFullBan.banType exOldFullBan.reason exOldFullBan.expiresAt :=
  (ban_lookup_reports_first_match exTwoBans 50 none none (some "s")
    exOldFullBan (by decide)).1 (by decide)

/-- C3 (amended).  For a moderator, `moderate_forum_post` always
returns success echoing the action, and the targeted post's new status
is decided by the action string alone — `approve` ⇒ `approved`,
`reject` ⇒ `rejected`, `delete` ⇒ `deleted`, anything else keeps the
current status — irrespective of the current status; every other
post's status is unchanged.  In particular `approve`/`reject` move a
`deleted` post back out of `deleted`. -/
theorem moderate_status_is_action_determined (st : ForumState) (u : Nat)
    (pid : Nat) (action : String)
    (hmod : isModeratorUser st.profiles u = true) :
    (moderate_forum_post st (some u) pid action).1 = ModResult.ok action ∧
    (moderate_forum_post st (some u) pid action).2.posts.map
        (fun q => (q.id, q.status)) =
      st.posts.map (fun q =>
        (q.id, if q.id = pid then moderationStatus action q.status else q.status)) := by
  simp only [moderate_forum_post, hmod, Bool.not_true, Bool.false_eq_true, if_false]
  refine ⟨trivial, ?_⟩
  split
  · unfold handle_parent_deletion
    rw [List.map_map, List.map_map]
    refine List.map_congr_left fun q hq => ?_
    by_cases hid : q.id = pid <;>
      by_cases hpar : q.parentId = some pid <;>
        simp [hid, hpar, promoteChild]
  · rw [List.map_map]
    refine List.map_congr_left fun q hq => ?_
    by_cases hid : q.id = pid <;> simp [hid]

/-- Witness for C3's amended theorem: rejecting the deleted post of
`exDeletedState`. -/
theorem moderate_status_is_action_determined_witness :
    (moderate_forum_post exDeletedState (some 7) 1 "reject").1 =
      ModResult.ok "reject" ∧
    (moderate_forum_post exDeletedState (some 7) 1 "reject").2.posts.map
        (fun q => (q.id, q.status)) =
      exDeletedState.posts.map (fun q =>
        (q.id, if q.id = 1 then moderationStatus "reject" q.status else q.status)) :=
  moderate_status_is_action_determined exDeletedState 7 1 "reject" (by decide)

/-- C10.  A moderator calling `moderate_forum_post` with an action
other than `approve`/`reject`/`delete` gets a success result echoing
the unrecognized action, and the UPDATE still runs: the targeted post
keeps its status but its `moderated_by` and `moderated_at` (and
`updated_at`) are overwritten; nothing else changes. -/
theorem moderate_unknown_action_frame (st : ForumState) (u pid : Nat)
    (action : String) (hmod : isModeratorUser st.profiles u = true)
    (ha : action ≠ "approve") (hr : action ≠ "reject") (hd : action ≠ "delete") :
    (moderate_forum_post st (some u) pid action).1 = ModResult.ok action ∧
    (moderate_forum_post st (some u) pid action).2.posts =
      st.posts.map fun q =>
        if q.id = pid then
          { q with moderatedBy := some u, moderatedAt := some st.now
                   updatedAt := st.now }
        else q := by
  simp only [moderate_forum_post, hmod, Bool.not_true, Bool.false_eq_true, if_false]
  have hcase : ∀ s : PostStatus, moderationStatus action s = s := by
    intro s
    simp [moderationStatus, ha, hr, hd]
  refine ⟨trivial, ?_⟩
  have hfire : (st.posts.any fun p =>
      p.id == pid && p.status != PostStatus.deleted &&
        moderationStatus action p.status == PostStatus.deleted) = false := by
    simp only [hcase, List.any_eq_false]
    intro p hp
    by_cases hs : p.status = PostStatus.deleted <;> simp [hs]
  rw [hfire]
  simp only [Bool.false_eq_true, if_false]
  refine List.map_congr_left fun q hq => ?_
  by_cases hid : q.id = pid <;> simp [hid, hcase]

/-- Witness for C10: the unrecognized action `publish` on the deleted
post of `exDeletedState`. -/
theorem moderate_unknown_action_frame_witness :
    (moderate_forum_post exDeletedState (some 7) 1 "publish").1 =
      ModResult.ok "publish" ∧
    (moderate_forum_post exDeletedState (some 7) 1 "publish").2.posts =
      exDeletedState.posts.map fun q =>
        if q.id = 1 then
          { q with moderatedBy := some 7, moderatedAt := some exDeletedState.now
                   updatedAt := exDeletedState.now }
        else q :=
  moderate_unknown_action_frame exDeletedState 7 1 "publish" (by decide)
    (by decide) (by decide) (by decide)

/-- C2 counterexample.  `human_submit_post` persists a post whose
content fails the word filter (the seeded `block` term `kys`): the
function never calls the ban check or the filter, so the submission is
inserted and auto-approved. -/
theorem human_submit_bypasses_screen_cex :
    (check_content_filter exFilterState.filters "please kys right now ok").passed =
      false ∧
    (human_submit_post exFilterState "please kys right now ok" none none "Guest").1 =
      SubmitResult.ok 1 PostStatus.approved none ∧
    (human_submit_post exFilterState "please kys right now ok" none none
        "Guest").2.posts.length = exFilterState.posts.length + 1 := by
  refine ⟨by decide, by decide, by decide⟩

/-- C2 (amended).  Only `ai_submit_post` screens submissions: whenever
it persists a row, the ban lookup answered not-banned and the word
filter passed.  `human_submit_post` and `ai_submit_with_key` neither
read nor write the ban and filter tables at all: their behaviour is
identical on a state with those tables replaced by anything. -/
theorem content_screening_scope :
    (∀ st content title parentId authorName aiModel sid,
      (ai_submit_post st content title parentId authorName aiModel
          sid).2.posts.length ≠ st.posts.length →
      check_ban_status st.bans st.now none none sid = BanCheck.notBanned ∧
      (check_content_filter st.filters ((title.getD "") ++ " " ++ content)).passed =
        true) ∧
    (∀ st bans2 filters2 content title parentId authorName,
      human_submit_post { st with bans := bans2, filters := filters2 }
          content title parentId authorName =
        ((human_submit_post st content title parentId authorName).1,
         { (human_submit_post st content title parentId authorName).2 with
             bans := bans2, filters := filters2 })) ∧
    (∀ st bans2 filters2 keyHash content title parentId,
      ai_submit_with_key { st with bans := bans2, filters := filters2 }
          keyHash content title parentId =
        ((ai_submit_with_key st keyHash content title parentId).1,
         { (ai_submit_with_key st keyHash content title parentId).2 with
             bans := bans2, filters := filters2 })) := by
  refine ⟨?_, ?_, ?_⟩
  · intro st content title parentId authorName aiModel sid hgrow
    cases hb : check_ban_status st.bans st.now none none sid with
    | banned bt r e =>
        exfalso
        apply hgrow
        simp only [ai_submit_post, hb]
        by_cases hsh : bt = BanType.shadow <;> simp [hsh]
    | notBanned =>
        refine ⟨rfl, ?_⟩
        by_cases hfc :
            (check_content_filter st.filters
              ((title.getD "") ++ " " ++ content)).passed = true
        · exact hfc
        · exfalso
          apply hgrow
          simp only [ai_submit_post, hb]
          simp [Bool.not_eq_true] at hfc
          simp [hfc]
  · intro st bans2 filters2 content title parentId authorName
    simp only [human_submit_post]
    by_cases hlen : (sqlTrim content).length < 10
    · simp [hlen]
    · cases parentId with
      | none => simp [hlen]
      | some pid =>
          simp only [hlen, if_false]
          cases hrt : resolveParentThread st.posts pid <;> simp [hrt]
  · intro st bans2 filters2 keyHash content title parentId
    simp only [ai_submit_with_key]
    cases hid : st.identities.find?
        (fun i => i.apiKeyHash == keyHash && i.revokedAt.isNone) with
    | none => simp
    | some ident =>
        by_cases hlen : (sqlTrim content).length < 10
        · simp [hlen]
        · cases parentId with
          | none => simp [hlen]
          | some pid =>
              simp only [hlen, if_false]
              cases hrt : resolveParentThread st.posts pid <;> simp [hrt]

/-- Witness for C2's amended theorem: a clean non-banned submission
through `ai_submit_post` on `exFilterState` does insert, so the
screening facts hold there. -/
theorem content_screening_scope_witness :
    check_ban_status exFilterState.bans exFilterState.now none none (some "sX") =
      BanCheck.notBanned ∧
    (check_content_filter exFilterState.filters
        (((some "T").getD "") ++ " " ++ "a perfectly clean sentence")).passed = true :=
  content_screening_scope.1 exFilterState "a perfectly clean sentence" (some "T")
    none "A" none (some "sX") (by decide)

/-- C6 counterexample.  Under the fully-populated shadow ban of
`exShadowSuccessState`, submitting 5-character content through
`ai_submit_post` returns the fabricated success object, not an error:
the ban check runs before the length validation. -/
theorem short_content_shadow_success_cex :
    (sqlTrim "short").length < 10 ∧
    banMatches exShadowSuccessState.now none none (some "s2")
      exFullColumnShadowBan = true ∧
    exFullColumnShadowBan.banType = BanType.shadow ∧
    (ai_submit_post exShadowSuccessState "short" none none "X" none (some "s2")).1 =
      SubmitResult.ok 0 PostStatus.pending (some "Post submitted for moderation.") := by
  refine ⟨by decide, by decide, by decide, by decide⟩

/-- C6 (amended).  Content shorter than 10 trimmed characters never
persists anything.  `human_submit_post` rejects it outright;
`ai_submit_with_key` leaves the state unchanged and returns an error
(either the key error or the length error); `ai_submit_post` leaves
the state unchanged and returns an error unless the ban lookup
reported a shadow ban, in which case the fabricated success-shaped
response is returned instead. -/
theorem short_content_never_persists (st : ForumState) (content : String)
    (hshort : (sqlTrim content).length < 10) :
    (∀ title parentId authorName,
      human_submit_post st content title parentId authorName =
        (SubmitResult.err "Content must be at least 10 characters", st)) ∧
    (∀ keyHash title parentId,
      (ai_submit_with_key st keyHash content title parentId).2 = st ∧
      ∃ m, (ai_submit_with_key st keyHash content title parentId).1 =
        SubmitResult.err m) ∧
    (∀ title parentId authorName aiModel sid,
      (ai_submit_post st content title parentId authorName aiModel sid).2 = st ∧
      ((∃ m, (ai_submit_post st content title parentId authorName aiModel sid).1 =
          SubmitResult.err m) ∨
       ((∃ r e, check_ban_status st.bans st.now none none sid =
           BanCheck.banned BanType.shadow r e) ∧
        (ai_submit_post st content title parentId authorName aiModel sid).1 =
          SubmitResult.ok 0 PostStatus.pending
            (some "Post submitted for moderation.")))) := by
  refine ⟨?_, ?_, ?_⟩
  · intro title parentId authorName
    simp [human_submit_post, hshort]
  · intro keyHash title parentId
    simp only [ai_submit_with_key]
    cases hid : st.identities.find?
        (fun i => i.apiKeyHash == keyHash && i.revokedAt.isNone) with
    | none => simp
    | some ident => simp [hshort]
  · intro title parentId authorName aiModel sid
    simp only [ai_submit_post]
    cases hb : check_ban_status st.bans st.now none none sid with
    | banned bt r e =>
        by_cases hsh : bt = BanType.shadow
        · subst hsh
          exact ⟨rfl, Or.inr ⟨⟨r, e, rfl⟩, rfl⟩⟩
        · simp [hsh]
    | notBanned =>
        by_cases hfc :
            (check_content_filter st.filters
              ((title.getD "") ++ " " ++ content)).passed = true
        · simp [hfc, hshort]
        · simp [Bool.not_eq_true] at hfc
          simp [hfc]

/-- Witness for C6's amended theorem: the human path at 5-character
content on `exShadowSuccessState`. -/
theorem short_content_never_persists_witness :
    human_submit_post exShadowSuccessState "short" none none "Guest" =
      (SubmitResult.err "Content must be at least 10 characters",
       exShadowSuccessState) :=
  (short_content_never_persists exShadowSuccessState "short" (by decide)).1
    none none "Guest"

/-- Helper: under a moderator and a live target, the posts table after
`moderate_forum_post ... "delete"` is the row-wise `deleteRowEffect`
image of the old table. -/
theorem moderate_delete_posts_map (st : ForumState) (u pid : Nat)
    (hmod : isModeratorUser st.profiles u = true)
    (hlive : (st.posts.any fun p =>
      p.id == pid && p.status != PostStatus.deleted) = true) :
    (moderate_forum_post st (some u) pid "delete").2.posts =
      st.posts.map (deleteRowEffect st.now u pid) := by
  have hms : ∀ s : PostStatus, moderationStatus "delete" s = PostStatus.deleted := by
    intro s
    simp [moderationStatus]
  simp only [moderate_forum_post, hmod, Bool.not_true, Bool.false_eq_true, if_false,
    hms, beq_self_eq_true, Bool.and_true, hlive, if_true]
  unfold handle_parent_deletion
  rw [List.map_map]
  refine List.map_congr_left fun q hq => ?_
  by_cases hid : q.id = pid <;> simp [deleteRowEffect, hid]

/-- C4.  When a moderator deletes a live post `pid`, the repair
trigger promotes exactly the direct children: the table keeps its
size; every old row whose parent was `pid` reappears with the same id,
a null parent, its own id as thread reference, and a non-null title
(kept if present, synthesized from the content prefix otherwise); no
resulting row references `pid` as parent; and every row that was
neither the target nor a direct child — grandchildren included — is
completely unchanged. -/
theorem delete_promotes_direct_children (st : ForumState) (u pid : Nat)
    (hmod : isModeratorUser st.profiles u = true)
    (hlive : (st.posts.any fun p =>
      p.id == pid && p.status != PostStatus.deleted) = true) :
    ((moderate_forum_post st (some u) pid "delete").2.posts.length =
      st.posts.length) ∧
    (∀ q ∈ st.posts, q.parentId = some pid →
      ∃ q' ∈ (moderate_forum_post st (some u) pid "delete").2.posts,
        q'.id = q.id ∧ q'.parentId = none ∧ q'.threadId = some q.id ∧
        q'.title = some (match q.title with
          | none => "[Thread] " ++ q.content.take 50 ++ "..."
          | some t => t)) ∧
    (∀ q' ∈ (moderate_forum_post st (some u) pid "delete").2.posts,
      q'.parentId ≠ some pid) ∧
    (∀ q ∈ st.posts, q.parentId ≠ some pid → q.id ≠ pid →
      q ∈ (moderate_forum_post st (some u) pid "delete").2.posts) := by
  rw [moderate_delete_posts_map st u pid hmod hlive]
  refine ⟨List.length_map _ _, ?_, ?_, ?_⟩
  · intro q hq hpar
    refine ⟨deleteRowEffect st.now u pid q, List.mem_map_of_mem _ hq, ?_⟩
    by_cases hid : q.id = pid <;>
      simp [deleteRowEffect, hid, hpar, promoteChild]
  · intro q' hq'
    rcases List.mem_map.mp hq' with ⟨q, hq, rfl⟩
    by_cases hid : q.id = pid <;>
      by_cases hpar : q.parentId = some pid <;>
        simp [deleteRowEffect, hid, hpar, promoteChild]
  · intro q hq hpar hid
    have : deleteRowEffect st.now u pid q = q := by
      simp [deleteRowEffect, hid, hpar]
    exact this ▸ List.mem_map_of_mem _ hq

/-- Witness for C4 at `exFamilyState`: deleting root 1 promotes its two
direct children 2 and 3 and leaves grandchild 4 alone. -/
theorem delete_promotes_direct_children_witness :
    ((moderate_forum_post exFamilyState (some 7) 1 "delete").2.posts.length =
      exFamilyState.posts.length) ∧
    (∀ q ∈ exFamilyState.posts, q.parentId = some 1 →
      ∃ q' ∈ (moderate_forum_post exFamilyState (some 7) 1 "delete").2.posts,
        q'.id = q.id ∧ q'.parentId = none ∧ q'.threadId = some q.id ∧
        q'.title = some (match q.title with
          | none => "[Thread] " ++ q.content.take 50 ++ "..."
          | some t => t)) ∧
    (∀ q' ∈ (moderate_forum_post exFamilyState (some 7) 1 "delete").2.posts,
      q'.parentId ≠ some 1) ∧
    (∀ q ∈ exFamilyState.posts, q.parentId ≠ some 1 → q.id ≠ 1 →
      q ∈ (moderate_forum_post exFamilyState (some 7) 1 "delete").2.posts) :=
  delete_promotes_direct_children exFamilyState 7 1 (by decide) (by decide)

/-- C1.  `check_ai_trigger` returns `triggered = true` only when the
master flag is on, the last-24-hours count of post/reply ledger
entries is strictly below the global daily cap, the hours since the
last synthetic activity reach the minimum, the posts-since or
views-since threshold is met, and the random draw is at most the
configured probability; moreover, when the flag is on and the cap is
reached, the evaluator returns `no-trigger(daily_limit)` — with no
metrics, persona or target — before the gate conditions or the random
draw can influence the outcome. -/
theorem check_ai_trigger_gate :
    (∀ st : ForumState, ∀ r1 r2 : ℚ,
      (check_ai_trigger st r1 r2).1.triggered = true →
      enabledFlag st = true ∧
      dailyAiCount st < maxDailySetting st ∧
      hoursSinceAi st ≥ minHoursSetting st ∧
      (postsSinceAiCount st ≥ postsThresholdSetting st ∨
        viewsSinceAiRead st ≥ viewsThresholdSetting st) ∧
      r1 ≤ randomChanceSetting st) ∧
    (∀ st : ForumState, ∀ r1 r2 : ℚ,
      enabledFlag st = true → dailyAiCount st ≥ maxDailySetting st →
      (check_ai_trigger st r1 r2).1 =
        { triggered := false, reason := some "daily_limit", persona := none
          targetPost := none, metrics := none }) := by
  constructor
  · intro st r1 r2 htrig
    simp only [check_ai_trigger] at htrig
    by_cases hen : enabledFlag st
    · simp only [hen, Bool.not_true, Bool.false_eq_true, if_false] at htrig
      by_cases hdaily : dailyAiCount st ≥ maxDailySetting st
      · simp [hdaily] at htrig
      · simp only [hdaily, if_false] at htrig
        by_cases hcond : hoursSinceAi st ≥ minHoursSetting st ∧
            (postsSinceAiCount st ≥ postsThresholdSetting st ∨
              viewsSinceAiRead st ≥ viewsThresholdSetting st) ∧
            r1 ≤ randomChanceSetting st
        · exact ⟨hen, lt_of_not_ge hdaily, hcond.1, hcond.2.1, hcond.2.2⟩
        · simp [hcond] at htrig
    · simp [hen] at htrig
  · intro st r1 r2 hen hdaily
    simp only [check_ai_trigger, hen, Bool.not_true, Bool.false_eq_true, if_false,
      hdaily, if_true]

/-- Witness for C1: in `exTriggerState` the evaluation triggers, so
all five gate facts hold there; in `exDailyCapState` (cap 0, already
reached) the result is exactly the `daily_limit` no-trigger. -/
theorem check_ai_trigger_gate_witness :
    (enabledFlag exTriggerState = true ∧
      dailyAiCount exTriggerState < maxDailySetting exTriggerState ∧
      hoursSinceAi exTriggerState ≥ minHoursSetting exTriggerState ∧
      (postsSinceAiCount exTriggerState ≥ postsThresholdSetting exTriggerState ∨
        viewsSinceAiRead exTriggerState ≥ viewsThresholdSetting exTriggerState) ∧
      (0 : ℚ) ≤ randomChanceSetting exTriggerState) ∧
    (check_ai_trigger exDailyCapState 0 0).1 =
      { triggered := false, reason := some "daily_limit", persona := none
        targetPost := none, metrics := none } :=
  ⟨check_ai_trigger_gate.1 exTriggerState 0 0 (by decide),
   check_ai_trigger_gate.2 exDailyCapState 0 0 (by decide) (by decide)⟩

/-- Helper: appending one vote row shifts the signed sum of its post
by its sign. -/
theorem voteSum_append (l : List Vote) (v : Vote) (q : Nat) :
    voteSum (l ++ [v]) q = voteSum l q + (if v.postId = q then v.voteType else 0) := by
  simp [voteSum]

/-- Helper: a vote found by the `(user, post)` key has those key
fields. -/
theorem voteKey_of_find? {l : List Vote} {u pid : Nat} {v : Vote}
    (h : l.find? (fun w => w.userId == u && w.postId == pid) = some v) :
    v.userId = u ∧ v.postId = pid := by
  have hb := List.find?_some h
  simpa using hb

/-- Helper: under the UNIQUE key constraint, deleting the found
`(user, post)` vote removes exactly its contribution from every signed
sum. -/
theorem voteSum_erase_key {l : List Vote} {u pid : Nat} {v : Vote}
    (huniq : l.Pairwise fun a b => ¬(a.userId = b.userId ∧ a.postId = b.postId))
    (hfind : l.find? (fun w => w.userId == u && w.postId == pid) = some v)
    (q : Nat) :
    voteSum (l.filter fun w => !(w.userId == u && w.postId == pid)) q =
      voteSum l q - (if v.postId = q then v.voteType else 0) := by
  induction l with
  | nil => simp at hfind
  | cons h t ih =>
    rcases List.pairwise_cons.mp huniq with ⟨hR, hPt⟩
    by_cases hk : (h.userId == u && h.postId == pid) = true
    · have hv : v = h := by
        simp only [List.find?_cons, hk, cond_true] at hfind
        exact (Option.some_inj.mp hfind).symm
      have hkey : h.userId = u ∧ h.postId = pid := by simpa using hk
      have htkeep : (t.filter fun w => !(w.userId == u && w.postId == pid)) = t := by
        refine List.filter_eq_self.mpr fun w hw => ?_
        cases hcw : (w.userId == u && w.postId == pid) with
        | false => simp
        | true =>
            exfalso
            have hw2 : w.userId = u ∧ w.postId = pid := by simpa using hcw
            exact hR w hw ⟨hkey.1.trans hw2.1.symm, hkey.2.trans hw2.2.symm⟩
      subst hv
      simp only [List.filter_cons, hk, Bool.not_true, htkeep, voteSum,
        List.map_cons, List.sum_cons]
      by_cases hq : v.postId = q <;> simp [hq]
    · have hk' : (h.userId == u && h.postId == pid) = false :=
        Bool.not_eq_true _ ▸ eq_false_of_ne_true hk
      simp only [List.find?_cons, hk', cond_false] at hfind
      have hrec := ih hPt hfind
      simp only [List.filter_cons, hk', Bool.not_false, voteSum, List.map_cons,
        List.sum_cons] at hrec ⊢
      by_cases hq : h.postId = q <;> simp [hq] at hrec ⊢ <;> omega

/-- Helper: under the UNIQUE key constraint, updating the found
`(user, post)` vote in place to sign `s` changes every signed sum by
the difference on that post. -/
theorem voteSum_update_key {l : List Vote} {u pid : Nat} {v : Vote}
    (huniq : l.Pairwise fun a b => ¬(a.userId = b.userId ∧ a.postId = b.postId))
    (hfind : l.find? (fun w => w.userId == u && w.postId == pid) = some v)
    (s n : Int) (q : Nat) :
    voteSum (l.map fun w =>
        if w.userId == u && w.postId == pid then
          { w with voteType := s, createdAt := n }
        else w) q =
      voteSum l q + (if v.postId = q then s - v.voteType else 0) := by
  induction l with
  | nil => simp at hfind
  | cons h t ih =>
    rcases List.pairwise_cons.mp huniq with ⟨hR, hPt⟩
    by_cases hk : (h.userId == u && h.postId == pid) = true
    · have hv : v = h := by
        simp only [List.find?_cons, hk, cond_true] at hfind
        exact (Option.some_inj.mp hfind).symm
      have hkey : h.userId = u ∧ h.postId = pid := by simpa using hk
      have htkeep : (t.map fun w =>
          if w.userId == u && w.postId == pid then
            { w with voteType := s, createdAt := n }
          else w) = t := by
        rw [List.map_congr_left (g := id) fun w hw => ?_]
        · exact List.map_id t
        · cases hcw : (w.userId == u && w.postId == pid) with
          | false => simp [hcw]
          | true =>
              exfalso
              have hw2 : w.userId = u ∧ w.postId = pid := by simpa using hcw
              exact hR w hw ⟨hkey.1.trans hw2.1.symm, hkey.2.trans hw2.2.symm⟩
      subst hv
      simp only [List.map_cons, hk, if_true, htkeep, voteSum, List.sum_cons]
      by_cases hq : v.postId = q <;> simp [hq] <;> omega
    · have hk' : (h.userId == u && h.postId == pid) = false :=
        Bool.not_eq_true _ ▸ eq_false_of_ne_true hk
      simp only [List.find?_cons, hk', cond_false] at hfind
      have hrec := ih hPt hfind
      simp only [List.map_cons, hk', if_false, voteSum, List.sum_cons] at hrec ⊢
      by_cases hq : h.postId = q <;> simp [hq] at hrec ⊢ <;> omega

/-- Helper: the trigger's score bump adds its delta to the bumped
post's stored score. -/
theorem scoreOf_bumpScore (now : Int) (posts : List Post) (pid : Nat) (d : Int)
    (hex : (posts.any fun p => p.id == pid) = true) :
    scoreOf (bumpScore now posts pid d) pid = scoreOf posts pid + d := by
  induction posts with
  | nil => simp at hex
  | cons h t ih =>
    by_cases hid : h.id = pid
    · simp [scoreOf, bumpScore, hid]
    · have hex' : (t.any fun p => p.id == pid) = true := by
        simpa [hid] using hex
      have := ih hex'
      simp only [bumpScore, List.map_cons, hid, if_false] at this ⊢
      simpa [scoreOf, hid] using this

/-- Helper: each post's stored score after the bump, relative to
before. -/
theorem consistent_after_bump {posts : List Post} {votes votes2 : List Vote}
    {now : Int} {pid : Nat} {d : Int}
    (hcons : ∀ p ∈ posts, p.voteScore = voteSum votes p.id)
    (hshift : ∀ q, voteSum votes2 q =
      voteSum votes q + (if pid = q then d else 0)) :
    ∀ p ∈ bumpScore now posts pid d, p.voteScore = voteSum votes2 p.id := by
  intro p' hp'
  rcases List.mem_map.mp hp' with ⟨p, hp, rfl⟩
  have hbase := hcons p hp
  by_cases hid : p.id = pid
  · simp [hid, hbase, hshift pid]
  · have hid2 : ¬pid = p.id := fun h => hid h.symm
    simp [hid, hid2, hbase, hshift p.id]

/-- Helper: one `toggle_vote` call preserves the vote well-formedness
invariant (UNIQUE key, sign CHECK, score = signed sum). -/
theorem toggle_vote_preserves_wf (st : ForumState) (uid : Option Nat)
    (pid : Nat) (s : Int) (hwf : voteWF st) : voteWF (toggle_vote st uid pid s).2 := by
  obtain ⟨huniq, htypes, hcons⟩ := hwf
  cases uid with
  | none => exact ⟨huniq, htypes, hcons⟩
  | some u =>
    simp only [toggle_vote]
    by_cases hex : (st.posts.any fun p => p.id == pid) = true
    · simp only [hex, Bool.not_true, Bool.false_eq_true, if_false]
      cases hfind : st.votes.find? (fun v => v.userId == u && v.postId == pid) with
      | none =>
        by_cases hs : s = 1 ∨ s = -1
        · simp only [hs, if_true]
          refine ⟨?_, ?_, ?_⟩
          · rw [List.pairwise_append]
            refine ⟨huniq, List.pairwise_singleton _ _, ?_⟩
            intro a ha b hb
            have hb' : b = (⟨u, pid, s, st.now⟩ : Vote) := by simpa using hb
            subst hb'
            have hnone := List.find?_eq_none.mp hfind a ha
            simp only [Bool.and_eq_true, beq_iff_eq] at hnone
            intro hcontra
            exact hnone ⟨hcontra.1, hcontra.2⟩
          · intro v hv
            rcases List.mem_append.mp hv with hv1 | hv2
            · exact htypes v hv1
            · have : v = (⟨u, pid, s, st.now⟩ : Vote) := by simpa using hv2
              subst this
              exact hs
          · refine consistent_after_bump hcons fun q => ?_
            simp [voteSum_append]
        · simp only [hs, if_false]
          exact ⟨huniq, htypes, hcons⟩
      | some v =>
        by_cases hsame : v.voteType = s
        · simp only [hsame, if_true]
          refine ⟨huniq.filter _, ?_, ?_⟩
          · intro w hw
            exact htypes w (List.mem_of_mem_filter hw)
          · refine consistent_after_bump hcons fun q => ?_
            rw [voteSum_erase_key huniq hfind q]
            have hvp : v.postId = pid := (voteKey_of_find? hfind).2
            by_cases hq : pid = q <;> simp [hvp, hq, hsame] <;> omega
        · simp only [hsame, if_false]
          by_cases hs : s = 1 ∨ s = -1
          · simp only [hs, if_true]
            refine ⟨?_, ?_, ?_⟩
            · rw [List.pairwise_map]
              refine huniq.imp fun {a b} hab => ?_
              by_cases hka : (a.userId == u && a.postId == pid) = true <;>
                by_cases hkb : (b.userId == u && b.postId == pid) = true <;>
                  simp only [hka, hkb, if_true, if_false] <;>
                    exact fun h => hab h
            · intro w hw
              rcases List.mem_map.mp hw with ⟨w0, hw0, rfl⟩
              by_cases hk : (w0.userId == u && w0.postId == pid) = true
              · simp only [hk, if_true]
                exact hs
              · have hk' : (w0.userId == u && w0.postId == pid) = false :=
                  Bool.not_eq_true _ ▸ eq_false_of_ne_true hk
                simp only [hk', if_false]
                exact htypes w0 hw0
            · refine consistent_after_bump hcons fun q => ?_
              rw [voteSum_update_key huniq hfind s st.now q]
              have hvp : v.postId = pid := (voteKey_of_find? hfind).2
              by_cases hq : pid = q <;> simp [hvp, hq] <;> omega
          · simp only [hs, if_false]
            exact ⟨huniq, htypes, hcons⟩
    · simp only [hex, Bool.not_false, if_true]
      exact ⟨huniq, htypes, hcons⟩

/-- C8.  (1) Starting from any state satisfying the vote invariant
(UNIQUE `(user, post)` key, signs in {+1, −1}, every post's stored
aggregate equal to the signed sum of its live vote rows), any sequence
of `toggleVote` calls preserves the invariant — the aggregate is
maintained by the per-call incremental deltas alone.  (2) With no
existing vote, the call appends exactly one vote row and adds the sign
to the aggregate.  (3) With an existing same-sign vote, the call
removes that row (the key no longer resolves) and subtracts the sign.
(4) With an existing opposite-sign vote, the call updates it in place
and applies a delta of twice the sign. -/
theorem toggle_vote_aggregate_invariant :
    (∀ st calls, voteWF st → voteWF (applyVotes st calls)) ∧
    (∀ st : ForumState, ∀ u pid : Nat, ∀ s : Int,
      (st.posts.any fun p => p.id == pid) = true →
      st.votes.find? (fun v => v.userId == u && v.postId == pid) = none →
      (s = 1 ∨ s = -1) →
      (toggle_vote st (some u) pid s).2.votes = st.votes ++ [⟨u, pid, s, st.now⟩] ∧
      scoreOf (toggle_vote st (some u) pid s).2.posts pid =
        scoreOf st.posts pid + s) ∧
    (∀ st : ForumState, ∀ u pid : Nat, ∀ s : Int, ∀ v : Vote,
      (st.posts.any fun p => p.id == pid) = true →
      st.votes.find? (fun w => w.userId == u && w.postId == pid) = some v →
      v.voteType = s →
      (toggle_vote st (some u) pid s).2.votes.find?
          (fun w => w.userId == u && w.postId == pid) = none ∧
      scoreOf (toggle_vote st (some u) pid s).2.posts pid =
        scoreOf st.posts pid - s) ∧
    (∀ st : ForumState, ∀ u pid : Nat, ∀ s : Int, ∀ v : Vote,
      voteWF st →
      (st.posts.any fun p => p.id == pid) = true →
      st.votes.find? (fun w => w.userId == u && w.postId == pid) = some v →
      v.voteType ≠ s → (s = 1 ∨ s = -1) →
      scoreOf (toggle_vote st (some u) pid s).2.posts pid =
        scoreOf st.posts pid + 2 * s) := by
  refine ⟨?_, ?_, ?_, ?_⟩
  · intro st calls hwf
    induction calls generalizing st with
    | nil => exact hwf
    | cons c rest ih =>
        exact ih _ (toggle_vote_preserves_wf st c.1 c.2.1 c.2.2 hwf)
  · intro st u pid s hex hfind hs
    simp only [toggle_vote, hex, Bool.not_true, Bool.false_eq_true, if_false,
      hfind, hs, if_true]
    exact ⟨trivial, scoreOf_bumpScore st.now st.posts pid s hex⟩
  · intro st u pid s v hex hfind hsame
    simp only [toggle_vote, hex, Bool.not_true, Bool.false_eq_true, if_false,
      hfind, hsame, if_true]
    constructor
    · refine List.find?_eq_none.mpr fun w hw => ?_
      have h2 := (List.mem_filter.mp hw).2
      simp only [Bool.not_eq_true'] at h2
      simp [h2]
    · have := scoreOf_bumpScore st.now st.posts pid (-v.voteType) hex
      rw [hsame] at this
      exact this
  · intro st u pid s v hwf hex hfind hne hs
    obtain ⟨huniq, htypes, hcons⟩ := hwf
    have hvmem := List.mem_of_find?_eq_some hfind
    have hvt := htypes v hvmem
    have hvs : v.voteType = -s := by
      rcases hs with h1 | h1 <;> rcases hvt with h2 | h2 <;> omega
    simp only [toggle_vote, hex, Bool.not_true, Bool.false_eq_true, if_false,
      hfind, hne, if_false, hs, if_true]
    rw [hvs]
    have h2s : - -s + s = 2 * s := by omega
    rw [h2s]
    exact scoreOf_bumpScore st.now st.posts pid (2 * s) hex

/-- Witness for C8: a concrete three-call toggle sequence (insert,
other actor insert, sign flip) from a consistent one-post state keeps
the invariant. -/
theorem toggle_vote_aggregate_invariant_witness :
    voteWF (applyVotes exTriggerState
      [(some 11, 1, 1), (some 12, 1, -1), (some 11, 1, -1)]) :=
  toggle_vote_aggregate_invariant.1 exTriggerState
    [(some 11, 1, 1), (some 12, 1, -1), (some 11, 1, -1)]
    ⟨List.Pairwise.nil, by simp [exTriggerState], by decide⟩

end ClaudeAwakens
